import Mathlib

/-!
Shallow embedding of the sodium-plant simulator core
(src/electrical_model.py, src/electrode_model.py, src/sodium_logic.py,
src/plant_model.py) over exact rational arithmetic, together with theorems
settling the specification claims.
-/

/-- Configuration for the DC supply and cell (src/electrical_model.py,
`ElectricalConfig`). Defaults are the Python dataclass defaults. -/
structure ElectricalConfig where
  max_dc_current_a : ℚ := 100000
  max_power_kw : ℚ := 5000
  base_cell_voltage_v : ℚ := 6
  base_current_a : ℚ := 50000
  cell_resistance_ohm : ℚ := 1 / 10000
  min_cell_voltage_v : ℚ := 4
  max_cell_voltage_v : ℚ := 9
  rectifier_efficiency : ℚ := 96 / 100
deriving DecidableEq

/-- The `constraint_reason` literal of `ElectricalState`
(src/electrical_model.py line 45). -/
inductive ConstraintReason where
  | none
  | current_limit
  | power_limit
  | voltage_limit
deriving DecidableEq

/-- Result of attempting to supply a given current
(src/electrical_model.py, `ElectricalState`). -/
structure ElectricalState where
  requested_current_a : ℚ
  actual_current_a : ℚ
  cell_voltage_v : ℚ
  dc_power_kw : ℚ
  ac_power_kw : ℚ
  constrained : Bool
  constraint_reason : ConstraintReason
deriving DecidableEq

/-- `compute_electrical_state` (src/electrical_model.py lines 48-111).
The sequential reassignments of `actual_current`, `v_cell`, `constrained`
and `reason` in the Python body are rendered as shadowing `let`s; the
comparisons and branch structure follow the source line by line. -/
def compute_electrical_state (requested_current_a : ℚ) (config : ElectricalConfig)
    (effective_cell_resistance_ohm : Option ℚ) : ElectricalState :=
  -- 1) Apply current limit
  let actual_current := min requested_current_a config.max_dc_current_a
  let constrained : Bool := if actual_current < requested_current_a then true else false
  let reason : ConstraintReason :=
    if actual_current < requested_current_a then ConstraintReason.current_limit
    else ConstraintReason.none
  -- 2) Estimate voltage with a simple linear + resistive model
  let r_cell := effective_cell_resistance_ohm.getD config.cell_resistance_ohm
  let scaling := if 0 < config.base_current_a then actual_current / config.base_current_a else 1
  let v_raw := config.base_cell_voltage_v * scaling + actual_current * r_cell
  -- 3) Enforce voltage limits
  let v_cell :=
    if v_raw < config.min_cell_voltage_v then config.min_cell_voltage_v
    else if config.max_cell_voltage_v < v_raw then config.max_cell_voltage_v
    else v_raw
  let constrained :=
    if v_raw < config.min_cell_voltage_v then true
    else if config.max_cell_voltage_v < v_raw then true
    else constrained
  let reason :=
    if v_raw < config.min_cell_voltage_v then ConstraintReason.voltage_limit
    else if config.max_cell_voltage_v < v_raw then ConstraintReason.voltage_limit
    else reason
  -- 4) Compute power and enforce power limit
  let dc_power_kw := actual_current * v_cell / 1000
  let ac_power_kw := dc_power_kw / max config.rectifier_efficiency (1 / 1000000)
  let scale := config.max_power_kw / ac_power_kw
  let actual_current' :=
    if config.max_power_kw < ac_power_kw then actual_current * scale else actual_current
  let dc_power_kw' :=
    if config.max_power_kw < ac_power_kw then dc_power_kw * scale else dc_power_kw
  let ac_power_kw' :=
    if config.max_power_kw < ac_power_kw then config.max_power_kw else ac_power_kw
  let constrained :=
    if config.max_power_kw < ac_power_kw then true else constrained
  let reason :=
    if config.max_power_kw < ac_power_kw then ConstraintReason.power_limit else reason
  { requested_current_a := requested_current_a
    actual_current_a := actual_current'
    cell_voltage_v := v_cell
    dc_power_kw := dc_power_kw'
    ac_power_kw := ac_power_kw'
    constrained := constrained
    constraint_reason := reason }

/-- Configuration parameters for electrode wear and performance
(src/electrode_model.py, `ElectrodeConfig`). -/
structure ElectrodeConfig where
  amp_hours_limit : ℚ := 1000000
  min_life_fraction_for_operation : ℚ := 1 / 10
  resistance_multiplier_at_end_of_life : ℚ := 2
  efficiency_at_new : ℚ := 9 / 10
  efficiency_at_end_of_life : ℚ := 3 / 4
deriving DecidableEq

/-- Dynamic state of an electrode set in the cell
(src/electrode_model.py, `ElectrodeState`). -/
structure ElectrodeState where
  cumulative_amp_hours : ℚ := 0
  in_maintenance : Bool := false
deriving DecidableEq

/-- `ElectrodeState.remaining_life_fraction` (src/electrode_model.py lines 34-38). -/
def ElectrodeState.remaining_life_fraction (s : ElectrodeState) (cfg : ElectrodeConfig) : ℚ :=
  if cfg.amp_hours_limit ≤ 0 then 1
  else max 0 (min 1 (1 - s.cumulative_amp_hours / cfg.amp_hours_limit))

/-- `ElectrodeState.effective_resistance_multiplier` (src/electrode_model.py lines 40-45). -/
def ElectrodeState.effective_resistance_multiplier (s : ElectrodeState)
    (cfg : ElectrodeConfig) : ℚ :=
  let life := s.remaining_life_fraction cfg
  let end_mult := cfg.resistance_multiplier_at_end_of_life
  1 + (1 - life) * (end_mult - 1)

/-- `ElectrodeState.effective_efficiency` (src/electrode_model.py lines 47-52). -/
def ElectrodeState.effective_efficiency (s : ElectrodeState) (cfg : ElectrodeConfig) : ℚ :=
  let life := s.remaining_life_fraction cfg
  let eff_new := cfg.efficiency_at_new
  let eff_end := cfg.efficiency_at_end_of_life
  eff_end + (eff_new - eff_end) * life

/-- `ElectrodeState.step` (src/electrode_model.py lines 54-62), rendered as a
state transformer: no-op in maintenance or for non-positive dt/current,
otherwise accumulate amp-hours and latch maintenance when life drops to or
below the minimum fraction. -/
def ElectrodeState.step (s : ElectrodeState) (cfg : ElectrodeConfig)
    (current_a : ℚ) (dt_hours : ℚ) : ElectrodeState :=
  if s.in_maintenance ∨ dt_hours ≤ 0 ∨ current_a ≤ 0 then s
  else
    let s' : ElectrodeState :=
      { s with cumulative_amp_hours := s.cumulative_amp_hours + current_a * dt_hours }
    if s'.remaining_life_fraction cfg ≤ cfg.min_life_fraction_for_operation then
      { s' with in_maintenance := true }
    else s'

/-- `ElectrodeState.reset_after_maintenance` (src/electrode_model.py lines 64-67). -/
def ElectrodeState.reset_after_maintenance (_ : ElectrodeState) : ElectrodeState :=
  { cumulative_amp_hours := 0, in_maintenance := false }

/-- `calculate_sodium_production` (src/sodium_logic.py lines 8-20), Faraday's
law: mass_g = (I * t * M) / (n * F) with M = 22.99 g/mol, n = 1, F = 96485. -/
def calculate_sodium_production (amperes : ℚ) (hours : ℚ) (efficiency : ℚ) : ℚ :=
  let seconds := hours * 3600
  let mass_grams := (amperes * seconds * (2299 / 100)) / (1 * 96485)
  (mass_grams / 1000) * efficiency

/-- `calculate_finances` (src/sodium_logic.py lines 23-37): returns
(total_revenue, total_cost, margin). -/
def calculate_finances (kg_produced : ℚ) (power_kw : ℚ) (hours : ℚ)
    (electricity_cost_per_kwh : ℚ) (sodium_price_per_kg : ℚ) : ℚ × ℚ × ℚ :=
  let total_revenue := kg_produced * sodium_price_per_kg
  let total_energy_kwh := power_kw * hours
  let total_cost := total_energy_kwh * electricity_cost_per_kwh
  let margin := total_revenue - total_cost
  (total_revenue, total_cost, margin)

/-- Parameters controlling temperature-dependent sodium losses
(src/plant_model.py, `SodiumLossConfig`). -/
structure SodiumLossConfig where
  evap_loss_low_temp_fraction : ℚ := 1 / 1000
  evap_loss_mid_temp_fraction : ℚ := 1 / 200
  evap_loss_high_temp_fraction : ℚ := 1 / 50
  recombined_loss_fraction : ℚ := 1 / 100
  low_temp_c : ℚ := 500
  high_temp_c : ℚ := 700
deriving DecidableEq

/-- Molar masses for the global chlor-alkali reaction
(src/plant_model.py, `ReactionStoichConfig`). -/
structure ReactionStoichConfig where
  molar_mass_na : ℚ := 2299 / 100
  molar_mass_naoh : ℚ := 40
  molar_mass_cl2 : ℚ := 70906 / 1000
  molar_mass_h2 : ℚ := 2016 / 1000
deriving DecidableEq

/-- `sodium_loss_fractions` (src/plant_model.py lines 51-68): returns
(f_collected, f_recombined, f_evap) from the cell temperature. -/
def sodium_loss_fractions (temp_c : ℚ) (cfg : SodiumLossConfig) : ℚ × ℚ × ℚ :=
  let f_evap :=
    if temp_c ≤ cfg.low_temp_c then cfg.evap_loss_low_temp_fraction
    else if temp_c ≤ cfg.high_temp_c then cfg.evap_loss_mid_temp_fraction
    else cfg.evap_loss_high_temp_fraction
  let f_recombined := cfg.recombined_loss_fraction
  let f_collected := max 0 (1 - f_recombined - f_evap)
  (f_collected, f_recombined, f_evap)

/-- Top-level configuration for the plant (src/plant_model.py, `PlantConfig`). -/
structure PlantConfig where
  electrical : ElectricalConfig := {}
  electrodes : ElectrodeConfig := {}
  sodium_losses : SodiumLossConfig := {}
  reaction_stoich : ReactionStoichConfig := {}
  power_cost_per_kwh : ℚ := 12 / 100
  sodium_price_per_kg : ℚ := 7 / 2
deriving DecidableEq

/-- Dynamic state of the plant (src/plant_model.py, `PlantState`). -/
structure PlantState where
  time_hours : ℚ := 0
  electrode_state : ElectrodeState := {}
  cumulative_na_produced_kg : ℚ := 0
  cumulative_naoh_kg : ℚ := 0
  cumulative_cl2_kg : ℚ := 0
  cumulative_h2_kg : ℚ := 0
  cumulative_revenue : ℚ := 0
  cumulative_cost : ℚ := 0
deriving DecidableEq

/-- The per-step numeric outputs of a producing tick, mirroring the fields of
the dict returned by `SodiumPlant.step` (src/plant_model.py lines 202-226). -/
structure StepOutputs where
  elec : ElectricalState
  na_theoretical_kg : ℚ
  na_collected_kg : ℚ
  na_recombined_kg : ℚ
  na_evap_kg : ℚ
  naoh_step_kg : ℚ
  cl2_step_kg : ℚ
  h2_step_kg : ℚ
  step_revenue : ℚ
  step_cost : ℚ
  step_margin : ℚ
deriving DecidableEq

/-- The three shapes of dict `SodiumPlant.step` can return: the empty dict for
dt_hours ≤ 0 (line 124), the status-only maintenance dict (lines 129-132), and
the full production dict (lines 202-226). -/
inductive StepResult where
  | empty
  | maintenance (time_hours : ℚ)
  | produced (time_hours : ℚ) (out : StepOutputs)
deriving DecidableEq

/-- The `na_theoretical_kg` field of a step result (0 when absent). -/
def StepResult.na_theoretical_kg : StepResult → ℚ
  | .produced _ o => o.na_theoretical_kg
  | _ => 0

/-- The `na_collected_kg` field of a step result (0 when absent). -/
def StepResult.na_collected_kg : StepResult → ℚ
  | .produced _ o => o.na_collected_kg
  | _ => 0

/-- The co-product derivation of `SodiumPlant.step`
(src/plant_model.py lines 155-169): map the theoretical sodium mass to
(naoh_kg, cl2_kg, h2_kg) through moles of Na, with per mole of Na
1 NaOH, 0.5 Cl2, 0.5 H2. -/
def co_product_masses (rs : ReactionStoichConfig) (na_theoretical_kg : ℚ) : ℚ × ℚ × ℚ :=
  let na_theoretical_mol := max 0 (na_theoretical_kg * 1000 / rs.molar_mass_na)
  let naoh_mol := na_theoretical_mol * 1
  let cl2_mol := na_theoretical_mol * (1 / 2)
  let h2_mol := na_theoretical_mol * (1 / 2)
  let naoh_kg := naoh_mol * rs.molar_mass_naoh / 1000
  let cl2_kg := cl2_mol * rs.molar_mass_cl2 / 1000
  let h2_kg := h2_mol * rs.molar_mass_h2 / 1000
  (naoh_kg, cl2_kg, h2_kg)

/-- The electrical state computed inside a producing tick
(src/plant_model.py lines 134-142): `compute_electrical_state` with the
electrode-conditioned effective resistance. -/
def SodiumPlant.tick_electrical (cfg : PlantConfig) (state : PlantState)
    (requested_current_a : ℚ) : ElectricalState :=
  let resistance_multiplier :=
    state.electrode_state.effective_resistance_multiplier cfg.electrodes
  let effective_resistance := cfg.electrical.cell_resistance_ohm * resistance_multiplier
  compute_electrical_state requested_current_a cfg.electrical (some effective_resistance)

/-- `SodiumPlant.step` (src/plant_model.py lines 117-226), as a pure function
from (config, state, requested current, dt) to (new state, result). The
fixed placeholder cell temperature of 600 (line 173) is inlined as in the
source; the FreeCAD visualization call (line 200) has no effect on state and
is omitted. -/
def SodiumPlant.step (cfg : PlantConfig) (state : PlantState)
    (requested_current_a : ℚ) (dt_hours : ℚ) : PlantState × StepResult :=
  if dt_hours ≤ 0 then (state, StepResult.empty)
  else if state.electrode_state.in_maintenance then
    let state' := { state with time_hours := state.time_hours + dt_hours }
    (state', StepResult.maintenance state'.time_hours)
  else
    -- 1) Electrical model with electrode-conditioned resistance
    let elec_state := SodiumPlant.tick_electrical cfg state requested_current_a
    -- 2) Electrode wear update
    let electrode_state' :=
      state.electrode_state.step cfg.electrodes elec_state.actual_current_a dt_hours
    -- 3) Faraday-based theoretical Na production (adjusted for electrode efficiency)
    let eff := electrode_state'.effective_efficiency cfg.electrodes
    let na_theoretical_kg :=
      calculate_sodium_production elec_state.actual_current_a dt_hours eff
    let cops := co_product_masses cfg.reaction_stoich na_theoretical_kg
    let naoh_kg := cops.1
    let cl2_kg := cops.2.1
    let h2_kg := cops.2.2
    -- 4) Loss fractions at the fixed placeholder cell temperature
    let cell_temp_c : ℚ := 600
    let fracs := sodium_loss_fractions cell_temp_c cfg.sodium_losses
    let f_collected := fracs.1
    let f_recombined := fracs.2.1
    let f_evap := fracs.2.2
    let na_collected_kg := na_theoretical_kg * f_collected
    let na_recombined_kg := na_theoretical_kg * f_recombined
    let na_evap_kg := na_theoretical_kg * f_evap
    -- 5) Finance over this step
    let fin := calculate_finances na_collected_kg elec_state.dc_power_kw dt_hours
      cfg.power_cost_per_kwh cfg.sodium_price_per_kg
    let revenue := fin.1
    let cost := fin.2.1
    let margin := fin.2.2
    -- 6) Cumulative updates
    let state' : PlantState :=
      { time_hours := state.time_hours + dt_hours
        electrode_state := electrode_state'
        cumulative_na_produced_kg := state.cumulative_na_produced_kg + na_collected_kg
        cumulative_naoh_kg := state.cumulative_naoh_kg + naoh_kg * f_collected
        cumulative_cl2_kg := state.cumulative_cl2_kg + cl2_kg * f_collected
        cumulative_h2_kg := state.cumulative_h2_kg + h2_kg * f_collected
        cumulative_revenue := state.cumulative_revenue + revenue
        cumulative_cost := state.cumulative_cost + cost }
    (state', StepResult.produced state'.time_hours
      { elec := elec_state
        na_theoretical_kg := na_theoretical_kg
        na_collected_kg := na_collected_kg
        na_recombined_kg := na_recombined_kg
        na_evap_kg := na_evap_kg
        naoh_step_kg := naoh_kg * f_collected
        cl2_step_kg := cl2_kg * f_collected
        h2_step_kg := h2_kg * f_collected
        step_revenue := revenue
        step_cost := cost
        step_margin := margin })

/-- Folding `SodiumPlant.step` over a list of (requested current, dt) pairs,
keeping only the final plant state (repeated `tick` calls, src/plant_model.py
lines 229-233). -/
def SodiumPlant.runTicks (cfg : PlantConfig) (state : PlantState) :
    List (ℚ × ℚ) → PlantState
  | [] => state
  | p :: rest => SodiumPlant.runTicks cfg (SodiumPlant.step cfg state p.1 p.2).1 rest

/-- Folding `ElectrodeState.step` over a list of (current, dt) pairs
(successive wear-integration steps). -/
def ElectrodeState.runSteps (cfg : ElectrodeConfig) (s : ElectrodeState) :
    List (ℚ × ℚ) → ElectrodeState
  | [] => s
  | p :: rest => ElectrodeState.runSteps cfg (s.step cfg p.1 p.2) rest

/-- C7: For every non-negative theoretical sodium mass M in kg produced in a
tick, the derived co-product masses equal NaOH = M * (40.00/22.99),
Cl2 = M * 0.5 * (70.906/22.99), and H2 = M * 0.5 * (2.016/22.99); with the
default molar masses the identity holds exactly over ℚ, hence in particular
within 1e-6 relative tolerance. -/
theorem co_product_stoichiometric_identity (M : ℚ) (hM : 0 ≤ M) :
    co_product_masses {} M =
      (M * (40 / (2299 / 100)),
       M * (1 / 2) * ((70906 / 1000) / (2299 / 100)),
       M * (1 / 2) * ((2016 / 1000) / (2299 / 100))) := by
  have h0 : (0 : ℚ) ≤ M * 1000 / (2299 / 100) := by positivity
  unfold co_product_masses
  simp only [max_eq_right h0, Prod.mk.injEq]
  refine ⟨?_, ?_, ?_⟩ <;> ring

/-- Witness for C7 at M = 1. -/
theorem co_product_stoichiometric_identity_witness :
    (0 : ℚ) ≤ 1 ∧
    co_product_masses {} 1 =
      ((1 : ℚ) * (40 / (2299 / 100)),
       (1 : ℚ) * (1 / 2) * ((70906 / 1000) / (2299 / 100)),
       (1 : ℚ) * (1 / 2) * ((2016 / 1000) / (2299 / 100))) :=
  ⟨by norm_num, co_product_stoichiometric_identity 1 (by norm_num)⟩

/-- C8: For every plant state and requested current, calling the tick with
dt_hours ≤ 0 returns the empty result and leaves the entire plant state
(time, electrode state, all cumulative counters) unchanged. -/
theorem step_nonpositive_dt_noop (cfg : PlantConfig) (s : PlantState)
    (req dt : ℚ) (hdt : dt ≤ 0) :
    SodiumPlant.step cfg s req dt = (s, StepResult.empty) := by
  unfold SodiumPlant.step
  rw [if_pos hdt]

/-- Witness for C8 at dt = 0. -/
theorem step_nonpositive_dt_noop_witness :
    (0 : ℚ) ≤ 0 ∧ SodiumPlant.step {} {} 5 0 = ({}, StepResult.empty) :=
  ⟨le_refl 0, step_nonpositive_dt_noop {} {} 5 0 (le_refl 0)⟩

/-- C9: Every ElectricalState returned by the electrical solver satisfies
dc_power_kw = actual_current_a * cell_voltage_v / 1000 exactly, including the
power-limited case where current and dc_power are rescaled by the same factor
while cell_voltage is left unchanged. -/
theorem solver_dc_power_identity (req : ℚ) (cfg : ElectricalConfig) (ρ : Option ℚ) :
    (compute_electrical_state req cfg ρ).dc_power_kw =
      (compute_electrical_state req cfg ρ).actual_current_a *
        (compute_electrical_state req cfg ρ).cell_voltage_v / 1000 := by
  simp only [compute_electrical_state]
  split_ifs <;> ring

/-- C10: The AC-power division of the electrical solver is guarded by a floor
of 1e-6 on the rectifier efficiency: the divisor is always positive, and for a
degenerate configuration with rectifier_efficiency ≤ 0 the solver computes the
same (total, always-defined) state as with the floor value itself. -/
theorem solver_rectifier_guard (req : ℚ) (cfg : ElectricalConfig) (ρ : Option ℚ)
    (hη : cfg.rectifier_efficiency ≤ 0) :
    0 < max cfg.rectifier_efficiency (1 / 1000000) ∧
    compute_electrical_state req cfg ρ =
      compute_electrical_state req { cfg with rectifier_efficiency := 1 / 1000000 } ρ := by
  have hmax : max cfg.rectifier_efficiency (1 / 1000000 : ℚ) = 1 / 1000000 :=
    max_eq_right (by linarith)
  refine ⟨by rw [hmax]; norm_num, ?_⟩
  simp only [compute_electrical_state, hmax, max_self]

/-- Witness for C10 at rectifier_efficiency = 0. -/
theorem solver_rectifier_guard_witness :
    ({ rectifier_efficiency := 0 : ElectricalConfig }).rectifier_efficiency ≤ 0 ∧
    (0 < max ({ rectifier_efficiency := 0 : ElectricalConfig }).rectifier_efficiency
        ((1 : ℚ) / 1000000) ∧
      compute_electrical_state 80000 { rectifier_efficiency := 0 } Option.none =
        compute_electrical_state 80000
          { ({ rectifier_efficiency := 0 : ElectricalConfig }) with
              rectifier_efficiency := 1 / 1000000 } Option.none) :=
  ⟨by norm_num, solver_rectifier_guard 80000 { rectifier_efficiency := 0 } Option.none
    (by norm_num)⟩

/-- C1 as stated is false on the code: in the tick, the electrode wear
integration (plant_model.py line 145) runs before the efficiency read
(line 148), so with default configuration, fresh electrodes, requested
current 10000 A and dt = 1 h, the theoretical sodium mass differs from the
value Faraday's law gives with the pre-tick efficiency (0.90). -/
theorem step_na_theoretical_not_pre_tick_efficiency_cex :
    (SodiumPlant.step {} {} 10000 1).2.na_theoretical_kg ≠
      calculate_sodium_production
        (SodiumPlant.tick_electrical {} {} 10000).actual_current_a 1
        (({} : PlantState).electrode_state.effective_efficiency
          ({} : PlantConfig).electrodes) := by
  norm_num [SodiumPlant.step, SodiumPlant.tick_electrical, compute_electrical_state,
    ElectrodeState.step, ElectrodeState.effective_efficiency,
    ElectrodeState.effective_resistance_multiplier, ElectrodeState.remaining_life_fraction,
    calculate_sodium_production, calculate_finances, co_product_masses,
    sodium_loss_fractions, StepResult.na_theoretical_kg, min_def, max_def]

/-- C1 amended: in a non-maintenance tick with dt_hours > 0, the theoretical
sodium mass is computed from the solved actual_current using the efficiency
derived from the electrode state as it is after this tick's wear integration
(the post-tick effective_efficiency), for every requested current and every
configuration. -/
theorem step_na_theoretical_uses_post_tick_efficiency
    (cfg : PlantConfig) (state : PlantState) (req dt : ℚ)
    (hdt : 0 < dt) (hm : state.electrode_state.in_maintenance = false) :
    (SodiumPlant.step cfg state req dt).2.na_theoretical_kg =
      calculate_sodium_production
        (SodiumPlant.tick_electrical cfg state req).actual_current_a dt
        ((state.electrode_state.step cfg.electrodes
            (SodiumPlant.tick_electrical cfg state req).actual_current_a
            dt).effective_efficiency cfg.electrodes) := by
  unfold SodiumPlant.step
  rw [if_neg (not_le.mpr hdt), hm]
  simp only [Bool.false_eq_true, if_false]
  rfl

/-- Witness for the amended C1 at the default configuration, fresh state,
requested current 10000 A, dt = 1 h. -/
theorem step_na_theoretical_uses_post_tick_efficiency_witness :
    (0 : ℚ) < 1 ∧ ({} : PlantState).electrode_state.in_maintenance = false ∧
    (SodiumPlant.step {} {} 10000 1).2.na_theoretical_kg =
      calculate_sodium_production
        (SodiumPlant.tick_electrical {} {} 10000).actual_current_a 1
        ((({} : PlantState).electrode_state.step ({} : PlantConfig).electrodes
            (SodiumPlant.tick_electrical {} {} 10000).actual_current_a
            1).effective_efficiency ({} : PlantConfig).electrodes) :=
  ⟨by norm_num, rfl,
    step_na_theoretical_uses_post_tick_efficiency {} {} 10000 1 (by norm_num) rfl⟩

/-- If the power limit binds, the rescaled current stays below any bound the
pre-scale current satisfied (the scale factor lies in (0,1] because the
AC power exceeds the positive power limit and the voltage is positive). -/
lemma scaled_current_le (a req P v d : ℚ) (haq : a ≤ req) (hP : 0 < P)
    (hv : 0 < v) (hd : 0 < d) (hlt : P < a * v / 1000 / d) :
    a * (P / (a * v / 1000 / d)) ≤ req := by
  have hac : 0 < a * v / 1000 / d := lt_trans hP hlt
  have hav : 0 < a * v / 1000 := by
    have h1 : a * v / 1000 = a * v / 1000 / d * d := by field_simp; ring
    rw [h1]; exact mul_pos hac hd
  have hav2 : 0 < a * v := by
    have h2 : a * v = a * v / 1000 * 1000 := by ring
    rw [h2]; exact mul_pos hav (by norm_num)
  have ha : 0 < a := by
    rcases mul_pos_iff.mp hav2 with ⟨h3, _⟩ | ⟨_, h4⟩
    · exact h3
    · linarith
  calc a * (P / (a * v / 1000 / d)) ≤ a * 1 := by
        apply mul_le_mul_of_nonneg_left _ ha.le
        exact (div_le_one hac).mpr hlt.le
    _ = a := mul_one a
    _ ≤ req := haq

/-- C2: For every valid configuration (limits positive, min_cell_voltage ≤
max_cell_voltage), every requested current, and every effective resistance,
the electrical solver returns a state with actual_current ≤ requested_current
and cell_voltage within [min_cell_voltage, max_cell_voltage]. -/
theorem solver_current_le_and_voltage_in_range (cfg : ElectricalConfig) (req : ℚ)
    (ρ : Option ℚ) (hdc : 0 < cfg.max_dc_current_a) (hP : 0 < cfg.max_power_kw)
    (hminv : 0 < cfg.min_cell_voltage_v)
    (hvv : cfg.min_cell_voltage_v ≤ cfg.max_cell_voltage_v) :
    (compute_electrical_state req cfg ρ).actual_current_a ≤ req ∧
    cfg.min_cell_voltage_v ≤ (compute_electrical_state req cfg ρ).cell_voltage_v ∧
    (compute_electrical_state req cfg ρ).cell_voltage_v ≤ cfg.max_cell_voltage_v := by
  simp only [compute_electrical_state]
  set a := min req cfg.max_dc_current_a with ha_def
  set r := ρ.getD cfg.cell_resistance_ohm with hr_def
  set s := if 0 < cfg.base_current_a then a / cfg.base_current_a else 1 with hs_def
  set w := cfg.base_cell_voltage_v * s + a * r with hw_def
  set v := if w < cfg.min_cell_voltage_v then cfg.min_cell_voltage_v
    else if cfg.max_cell_voltage_v < w then cfg.max_cell_voltage_v else w with hv_def
  set d := max cfg.rectifier_efficiency (1 / 1000000) with hd_def
  have hvmem : cfg.min_cell_voltage_v ≤ v ∧ v ≤ cfg.max_cell_voltage_v := by
    rw [hv_def]
    split_ifs with h1 h2 <;> exact ⟨by linarith, by linarith⟩
  have hvpos : 0 < v := lt_of_lt_of_le hminv hvmem.1
  have hd : 0 < d := lt_of_lt_of_le (by norm_num) (le_max_right _ _)
  refine ⟨?_, hvmem.1, hvmem.2⟩
  split_ifs with hp
  · exact scaled_current_le a req cfg.max_power_kw v d (min_le_left _ _) hP hvpos hd hp
  · exact min_le_left _ _

/-- Witness for C2 at the default configuration, requested current 10000 A,
effective resistance 1e-4 ohm. -/
theorem solver_current_le_and_voltage_in_range_witness :
    0 < ({} : ElectricalConfig).max_dc_current_a ∧
    0 < ({} : ElectricalConfig).max_power_kw ∧
    0 < ({} : ElectricalConfig).min_cell_voltage_v ∧
    ({} : ElectricalConfig).min_cell_voltage_v ≤ ({} : ElectricalConfig).max_cell_voltage_v ∧
    ((compute_electrical_state 10000 {} (some (1 / 10000))).actual_current_a ≤ 10000 ∧
      ({} : ElectricalConfig).min_cell_voltage_v ≤
        (compute_electrical_state 10000 {} (some (1 / 10000))).cell_voltage_v ∧
      (compute_electrical_state 10000 {} (some (1 / 10000))).cell_voltage_v ≤
        ({} : ElectricalConfig).max_cell_voltage_v) :=
  ⟨by norm_num, by norm_num, by norm_num, by norm_num,
    solver_current_le_and_voltage_in_range {} 10000 (some (1 / 10000))
      (by norm_num) (by norm_num) (by norm_num) (by norm_num)⟩

/-- The unclamped cell voltage of the solver's step 2
(src/electrical_model.py lines 69-78): linear scaling around the base point
plus the ohmic term, at the current-limited current. -/
def solver_v_raw (req : ℚ) (cfg : ElectricalConfig) (ρ : Option ℚ) : ℚ :=
  let actual_current := min req cfg.max_dc_current_a
  let r_cell := ρ.getD cfg.cell_resistance_ohm
  let scaling := if 0 < cfg.base_current_a then actual_current / cfg.base_current_a else 1
  cfg.base_cell_voltage_v * scaling + actual_current * r_cell

/-- The clamped cell voltage of the solver's step 3
(src/electrical_model.py lines 80-88). -/
def solver_v_cell (req : ℚ) (cfg : ElectricalConfig) (ρ : Option ℚ) : ℚ :=
  if solver_v_raw req cfg ρ < cfg.min_cell_voltage_v then cfg.min_cell_voltage_v
  else if cfg.max_cell_voltage_v < solver_v_raw req cfg ρ then cfg.max_cell_voltage_v
  else solver_v_raw req cfg ρ

/-- The voltage limit binds in the solver's step 3: the raw voltage falls
outside [min_cell_voltage, max_cell_voltage]. -/
def solver_voltage_clamps (req : ℚ) (cfg : ElectricalConfig) (ρ : Option ℚ) : Prop :=
  solver_v_raw req cfg ρ < cfg.min_cell_voltage_v ∨
    cfg.max_cell_voltage_v < solver_v_raw req cfg ρ

/-- The power limit binds in the solver's step 4
(src/electrical_model.py line 94): the AC power computed from the
current-limited current and the clamped voltage exceeds max_power. -/
def solver_power_clamps (req : ℚ) (cfg : ElectricalConfig) (ρ : Option ℚ) : Prop :=
  cfg.max_power_kw <
    min req cfg.max_dc_current_a * solver_v_cell req cfg ρ / 1000 /
      max cfg.rectifier_efficiency (1 / 1000000)

/-- C3 as stated is false on the code: with the default configuration and
requested current 150000 A (above max_dc_current = 100000), the power limit
does not bind (ac_power = 937.5 ≤ 5000) yet the reported reason is
voltage_limit, not current_limit, because the voltage clamp at step 3
overrides the current_limit reason. -/
theorem solver_above_max_current_reason_cex :
    ({} : ElectricalConfig).max_dc_current_a < 150000 ∧
    (compute_electrical_state 150000 {} Option.none).ac_power_kw ≤
      ({} : ElectricalConfig).max_power_kw ∧
    (compute_electrical_state 150000 {} Option.none).constraint_reason ≠
      ConstraintReason.current_limit := by
  refine ⟨by norm_num, ?_, ?_⟩
  · norm_num [compute_electrical_state, min_def, max_def]
  · norm_num [compute_electrical_state, min_def, max_def]
    decide

/-- C3 amended: for every configuration and every requested current strictly
above max_dc_current, the solver reports constraint_reason = current_limit and
actual_current = max_dc_current unless the voltage or power limit also binds;
with last-write-wins precedence current → voltage → power, the reported reason
is power_limit when the power limit binds, else voltage_limit when the voltage
clamp binds, else current_limit; actual_current = max_dc_current whenever the
power limit does not bind; exactly one reason is reported and it is never
none. -/
theorem solver_above_max_current_reason (cfg : ElectricalConfig) (req : ℚ) (ρ : Option ℚ)
    (h : cfg.max_dc_current_a < req) :
    (¬ solver_power_clamps req cfg ρ →
      (compute_electrical_state req cfg ρ).actual_current_a = cfg.max_dc_current_a) ∧
    (solver_power_clamps req cfg ρ →
      (compute_electrical_state req cfg ρ).constraint_reason = ConstraintReason.power_limit) ∧
    (¬ solver_power_clamps req cfg ρ → solver_voltage_clamps req cfg ρ →
      (compute_electrical_state req cfg ρ).constraint_reason = ConstraintReason.voltage_limit) ∧
    (¬ solver_power_clamps req cfg ρ → ¬ solver_voltage_clamps req cfg ρ →
      (compute_electrical_state req cfg ρ).constraint_reason = ConstraintReason.current_limit) ∧
    (compute_electrical_state req cfg ρ).constraint_reason ≠ ConstraintReason.none := by
  have hmin : min req cfg.max_dc_current_a = cfg.max_dc_current_a := min_eq_right h.le
  refine ⟨?_, ?_, ?_, ?_, ?_⟩
  · intro hp
    simp only [solver_power_clamps, solver_v_cell, solver_v_raw, hmin] at hp
    simp only [compute_electrical_state, hmin]
    rw [if_neg hp]
  · intro hp
    simp only [solver_power_clamps, solver_v_cell, solver_v_raw, hmin] at hp
    simp only [compute_electrical_state, hmin]
    rw [if_pos hp]
  · intro hp hv
    simp only [solver_power_clamps, solver_v_cell, solver_v_raw, hmin] at hp
    simp only [solver_voltage_clamps, solver_v_raw, hmin] at hv
    simp only [compute_electrical_state, hmin]
    rw [if_neg hp]
    by_cases h1 : cfg.base_cell_voltage_v *
        (if 0 < cfg.base_current_a then cfg.max_dc_current_a / cfg.base_current_a else 1) +
        cfg.max_dc_current_a * ρ.getD cfg.cell_resistance_ohm < cfg.min_cell_voltage_v
    · rw [if_pos h1]
    · rw [if_neg h1]
      rcases hv with hv1 | hv2
      · exact absurd hv1 h1
      · rw [if_pos hv2]
  · intro hp hv
    simp only [solver_power_clamps, solver_v_cell, solver_v_raw, hmin] at hp
    simp only [solver_voltage_clamps, solver_v_raw, hmin] at hv
    push_neg at hv
    simp only [compute_electrical_state, hmin]
    rw [if_neg hp, if_neg (not_lt.mpr hv.1), if_neg (not_lt.mpr hv.2), if_pos h]
  · simp only [compute_electrical_state, hmin]
    split_ifs <;> simp_all

/-- Witness for the amended C3 at the default configuration and requested
current 150000 A. -/
theorem solver_above_max_current_reason_witness :
    ({} : ElectricalConfig).max_dc_current_a < 150000 ∧
    ((¬ solver_power_clamps 150000 {} Option.none →
      (compute_electrical_state 150000 {} Option.none).actual_current_a =
        ({} : ElectricalConfig).max_dc_current_a) ∧
    (solver_power_clamps 150000 {} Option.none →
      (compute_electrical_state 150000 {} Option.none).constraint_reason =
        ConstraintReason.power_limit) ∧
    (¬ solver_power_clamps 150000 {} Option.none →
        solver_voltage_clamps 150000 {} Option.none →
      (compute_electrical_state 150000 {} Option.none).constraint_reason =
        ConstraintReason.voltage_limit) ∧
    (¬ solver_power_clamps 150000 {} Option.none →
        ¬ solver_voltage_clamps 150000 {} Option.none →
      (compute_electrical_state 150000 {} Option.none).constraint_reason =
        ConstraintReason.current_limit) ∧
    (compute_electrical_state 150000 {} Option.none).constraint_reason ≠
      ConstraintReason.none) :=
  ⟨by norm_num, solver_above_max_current_reason {} 150000 Option.none (by norm_num)⟩

/-- C4 as stated is false on the code: with default configuration, fresh
electrodes, requested current 10000 A and dt = 1 h, the tick's theoretical
sodium mass exceeds the claimed 0.3087 kg by more than 7 kg, and the collected
mass exceeds the claimed 0.3041 kg by more than 7 kg (the claimed values do
not match the claim's own Faraday formula, which gives about 7.72 kg). -/
theorem scenario_a_masses_cex :
    7 < (SodiumPlant.step {} {} 10000 1).2.na_theoretical_kg - 3087 / 10000 ∧
    7 < (SodiumPlant.step {} {} 10000 1).2.na_collected_kg - 3041 / 10000 := by
  constructor <;>
    norm_num [SodiumPlant.step, SodiumPlant.tick_electrical, compute_electrical_state,
      ElectrodeState.step, ElectrodeState.effective_efficiency,
      ElectrodeState.effective_resistance_multiplier, ElectrodeState.remaining_life_fraction,
      calculate_sodium_production, calculate_finances, co_product_masses,
      sodium_loss_fractions, StepResult.na_theoretical_kg, StepResult.na_collected_kg,
      min_def, max_def]

/-- C4 amended: with default configuration, fresh electrodes, requested
current 10000 A and dt = 1 h, a single tick yields theoretical sodium mass
equal to Faraday's law at the post-tick efficiency 0.8985, about 7.7073 kg
(in (7.7072, 7.7073)); the loss fractions at the fixed 600 C mid bracket are
f_collected = 0.985, f_recombined = 0.01, f_evap = 0.005; and the collected
sodium is the theoretical mass times 0.985, about 7.5917 kg
(in (7.5916, 7.5917)). -/
theorem scenario_a_masses :
    (SodiumPlant.step {} {} 10000 1).2.na_theoretical_kg =
      calculate_sodium_production 10000 1 (1797 / 2000) ∧
    77072 / 10000 < (SodiumPlant.step {} {} 10000 1).2.na_theoretical_kg ∧
    (SodiumPlant.step {} {} 10000 1).2.na_theoretical_kg < 77073 / 10000 ∧
    sodium_loss_fractions 600 {} = (197 / 200, 1 / 100, 1 / 200) ∧
    (SodiumPlant.step {} {} 10000 1).2.na_collected_kg =
      (SodiumPlant.step {} {} 10000 1).2.na_theoretical_kg * (197 / 200) ∧
    75916 / 10000 < (SodiumPlant.step {} {} 10000 1).2.na_collected_kg ∧
    (SodiumPlant.step {} {} 10000 1).2.na_collected_kg < 75917 / 10000 := by
  refine ⟨?_, ?_, ?_, ?_, ?_, ?_, ?_⟩ <;>
    norm_num [SodiumPlant.step, SodiumPlant.tick_electrical, compute_electrical_state,
      ElectrodeState.step, ElectrodeState.effective_efficiency,
      ElectrodeState.effective_resistance_multiplier, ElectrodeState.remaining_life_fraction,
      calculate_sodium_production, calculate_finances, co_product_masses,
      sodium_loss_fractions, StepResult.na_theoretical_kg, StepResult.na_collected_kg,
      min_def, max_def]

/-- Validity assumptions on a plant configuration. -/
def PlantConfig.valid (cfg : PlantConfig) : Prop :=
  0 ≤ cfg.electrical.max_dc_current_a ∧ 0 < cfg.electrical.max_power_kw ∧
  0 < cfg.electrical.min_cell_voltage_v ∧
  cfg.electrical.min_cell_voltage_v ≤ cfg.electrical.max_cell_voltage_v ∧
  0 ≤ cfg.electrodes.efficiency_at_new ∧ 0 ≤ cfg.electrodes.efficiency_at_end_of_life ∧
  0 ≤ cfg.reaction_stoich.molar_mass_naoh ∧ 0 ≤ cfg.reaction_stoich.molar_mass_cl2 ∧
  0 ≤ cfg.reaction_stoich.molar_mass_h2 ∧
  0 ≤ cfg.power_cost_per_kwh ∧ 0 ≤ cfg.sodium_price_per_kg

/-- Componentwise order on time and the cumulative counters of PlantState. -/
def PlantState.counters_le (s t : PlantState) : Prop :=
  s.time_hours ≤ t.time_hours ∧
  s.cumulative_na_produced_kg ≤ t.cumulative_na_produced_kg ∧
  s.cumulative_naoh_kg ≤ t.cumulative_naoh_kg ∧
  s.cumulative_cl2_kg ≤ t.cumulative_cl2_kg ∧
  s.cumulative_h2_kg ≤ t.cumulative_h2_kg ∧
  s.cumulative_revenue ≤ t.cumulative_revenue ∧
  s.cumulative_cost ≤ t.cumulative_cost

lemma PlantState.counters_le_refl (s : PlantState) : s.counters_le s :=
  ⟨le_refl _, le_refl _, le_refl _, le_refl _, le_refl _, le_refl _, le_refl _⟩

lemma PlantState.counters_le_trans {s t u : PlantState}
    (h1 : s.counters_le t) (h2 : t.counters_le u) : s.counters_le u :=
  ⟨le_trans h1.1 h2.1, le_trans h1.2.1 h2.2.1, le_trans h1.2.2.1 h2.2.2.1,
   le_trans h1.2.2.2.1 h2.2.2.2.1, le_trans h1.2.2.2.2.1 h2.2.2.2.2.1,
   le_trans h1.2.2.2.2.2.1 h2.2.2.2.2.2.1, le_trans h1.2.2.2.2.2.2 h2.2.2.2.2.2.2⟩

/-- The remaining life fraction always lies in [0, 1]. -/
lemma remaining_life_mem (s : ElectrodeState) (cfg : ElectrodeConfig) :
    0 ≤ s.remaining_life_fraction cfg ∧ s.remaining_life_fraction cfg ≤ 1 := by
  unfold ElectrodeState.remaining_life_fraction
  split_ifs with h
  · exact ⟨zero_le_one, le_refl 1⟩
  · exact ⟨le_max_left _ _, max_le zero_le_one (min_le_left _ _)⟩

/-- The effective efficiency is non-negative when both endpoint efficiencies
are. -/
lemma effective_efficiency_nonneg (s : ElectrodeState) (cfg : ElectrodeConfig)
    (h1 : 0 ≤ cfg.efficiency_at_new) (h2 : 0 ≤ cfg.efficiency_at_end_of_life) :
    0 ≤ s.effective_efficiency cfg := by
  simp only [ElectrodeState.effective_efficiency]
  obtain ⟨hl0, hl1⟩ := remaining_life_mem s cfg
  nlinarith [mul_nonneg h1 hl0, mul_nonneg h2 (sub_nonneg.mpr hl1)]

/-- Faraday production is non-negative for non-negative inputs. -/
lemma calculate_sodium_production_nonneg (a t e : ℚ)
    (ha : 0 ≤ a) (ht : 0 ≤ t) (he : 0 ≤ e) :
    0 ≤ calculate_sodium_production a t e := by
  simp only [calculate_sodium_production]
  positivity

/-- The collected fraction is non-negative for every temperature. -/
lemma sodium_loss_f_collected_nonneg (temp : ℚ) (cfg : SodiumLossConfig) :
    0 ≤ (sodium_loss_fractions temp cfg).1 := by
  simp only [sodium_loss_fractions]
  exact le_max_left _ _

/-- The co-product masses are non-negative when the molar masses are. -/
lemma co_product_masses_nonneg (rs : ReactionStoichConfig) (M : ℚ)
    (h1 : 0 ≤ rs.molar_mass_naoh) (h2 : 0 ≤ rs.molar_mass_cl2)
    (h3 : 0 ≤ rs.molar_mass_h2) :
    0 ≤ (co_product_masses rs M).1 ∧ 0 ≤ (co_product_masses rs M).2.1 ∧
    0 ≤ (co_product_masses rs M).2.2 := by
  simp only [co_product_masses]
  have h0 : (0 : ℚ) ≤ max 0 (M * 1000 / rs.molar_mass_na) := le_max_left _ _
  refine ⟨?_, ?_, ?_⟩ <;> positivity

lemma calculate_finances_revenue_nonneg (kg p h c pr : ℚ)
    (h1 : 0 ≤ kg) (h2 : 0 ≤ pr) : 0 ≤ (calculate_finances kg p h c pr).1 := by
  simp only [calculate_finances]
  exact mul_nonneg h1 h2

lemma calculate_finances_cost_nonneg (kg p h c pr : ℚ)
    (h1 : 0 ≤ p) (h2 : 0 ≤ h) (h3 : 0 ≤ c) :
    0 ≤ (calculate_finances kg p h c pr).2.1 := by
  simp only [calculate_finances]
  exact mul_nonneg (mul_nonneg h1 h2) h3

/-- Non-negativity of the solver's actual current and DC power under the
validity assumptions, for non-negative requested current. -/
lemma solver_actual_and_dc_nonneg (cfg : ElectricalConfig) (req : ℚ) (ρ : Option ℚ)
    (hreq : 0 ≤ req) (hdc : 0 ≤ cfg.max_dc_current_a) (hP : 0 < cfg.max_power_kw)
    (hminv : 0 < cfg.min_cell_voltage_v)
    (hvv : cfg.min_cell_voltage_v ≤ cfg.max_cell_voltage_v) :
    0 ≤ (compute_electrical_state req cfg ρ).actual_current_a ∧
    0 ≤ (compute_electrical_state req cfg ρ).dc_power_kw := by
  simp only [compute_electrical_state]
  set a := min req cfg.max_dc_current_a with ha_def
  set r := ρ.getD cfg.cell_resistance_ohm with hr_def
  set s := if 0 < cfg.base_current_a then a / cfg.base_current_a else 1 with hs_def
  set w := cfg.base_cell_voltage_v * s + a * r with hw_def
  set v := if w < cfg.min_cell_voltage_v then cfg.min_cell_voltage_v
    else if cfg.max_cell_voltage_v < w then cfg.max_cell_voltage_v else w with hv_def
  set d := max cfg.rectifier_efficiency (1 / 1000000) with hd_def
  have ha : 0 ≤ a := le_min hreq hdc
  have hvpos : 0 < v := by
    rw [hv_def]
    split_ifs with h1 h2 <;> linarith
  constructor
  · split_ifs with hp
    · have hac : 0 < a * v / 1000 / d := lt_trans hP hp
      exact mul_nonneg ha (div_nonneg hP.le hac.le)
    · exact ha
  · split_ifs with hp
    · have hac : 0 < a * v / 1000 / d := lt_trans hP hp
      exact mul_nonneg (div_nonneg (mul_nonneg ha hvpos.le) (by norm_num))
        (div_nonneg hP.le hac.le)
    · exact div_nonneg (mul_nonneg ha hvpos.le) (by norm_num)

/-- The plant state produced by a production tick, written out explicitly. -/
lemma step_production_state (cfg : PlantConfig) (s : PlantState) (req dt : ℚ)
    (h1 : ¬ dt ≤ 0) (h2 : ¬ s.electrode_state.in_maintenance = true) :
    (SodiumPlant.step cfg s req dt).1 =
      { time_hours := s.time_hours + dt
        electrode_state := s.electrode_state.step cfg.electrodes
          (SodiumPlant.tick_electrical cfg s req).actual_current_a dt
        cumulative_na_produced_kg := s.cumulative_na_produced_kg +
          calculate_sodium_production
            (SodiumPlant.tick_electrical cfg s req).actual_current_a dt
            ((s.electrode_state.step cfg.electrodes
              (SodiumPlant.tick_electrical cfg s req).actual_current_a
              dt).effective_efficiency cfg.electrodes) *
            (sodium_loss_fractions 600 cfg.sodium_losses).1
        cumulative_naoh_kg := s.cumulative_naoh_kg +
          (co_product_masses cfg.reaction_stoich
            (calculate_sodium_production
              (SodiumPlant.tick_electrical cfg s req).actual_current_a dt
              ((s.electrode_state.step cfg.electrodes
                (SodiumPlant.tick_electrical cfg s req).actual_current_a
                dt).effective_efficiency cfg.electrodes))).1 *
            (sodium_loss_fractions 600 cfg.sodium_losses).1
        cumulative_cl2_kg := s.cumulative_cl2_kg +
          (co_product_masses cfg.reaction_stoich
            (calculate_sodium_production
              (SodiumPlant.tick_electrical cfg s req).actual_current_a dt
              ((s.electrode_state.step cfg.electrodes
                (SodiumPlant.tick_electrical cfg s req).actual_current_a
                dt).effective_efficiency cfg.electrodes))).2.1 *
            (sodium_loss_fractions 600 cfg.sodium_losses).1
        cumulative_h2_kg := s.cumulative_h2_kg +
          (co_product_masses cfg.reaction_stoich
            (calculate_sodium_production
              (SodiumPlant.tick_electrical cfg s req).actual_current_a dt
              ((s.electrode_state.step cfg.electrodes
                (SodiumPlant.tick_electrical cfg s req).actual_current_a
                dt).effective_efficiency cfg.electrodes))).2.2 *
            (sodium_loss_fractions 600 cfg.sodium_losses).1
        cumulative_revenue := s.cumulative_revenue +
          (calculate_finances
            (calculate_sodium_production
              (SodiumPlant.tick_electrical cfg s req).actual_current_a dt
              ((s.electrode_state.step cfg.electrodes
                (SodiumPlant.tick_electrical cfg s req).actual_current_a
                dt).effective_efficiency cfg.electrodes) *
              (sodium_loss_fractions 600 cfg.sodium_losses).1)
            (SodiumPlant.tick_electrical cfg s req).dc_power_kw dt
            cfg.power_cost_per_kwh cfg.sodium_price_per_kg).1
        cumulative_cost := s.cumulative_cost +
          (calculate_finances
            (calculate_sodium_production
              (SodiumPlant.tick_electrical cfg s req).actual_current_a dt
              ((s.electrode_state.step cfg.electrodes
                (SodiumPlant.tick_electrical cfg s req).actual_current_a
                dt).effective_efficiency cfg.electrodes) *
              (sodium_loss_fractions 600 cfg.sodium_losses).1)
            (SodiumPlant.tick_electrical cfg s req).dc_power_kw dt
            cfg.power_cost_per_kwh cfg.sodium_price_per_kg).2.1 } := by
  simp only [SodiumPlant.step]
  rw [if_neg h1, if_neg h2]

/-- A single tick never decreases time or any cumulative counter when the
requested current is non-negative and the configuration is valid. -/
lemma step_counters_mono (cfg : PlantConfig) (hv : cfg.valid) (s : PlantState)
    (req dt : ℚ) (hreq : 0 ≤ req) :
    s.counters_le (SodiumPlant.step cfg s req dt).1 := by
  obtain ⟨hdc, hP, hminv, hvv, hen, hee, hnaoh, hcl2, hh2, hpc, hpp⟩ := hv
  by_cases h1 : dt ≤ 0
  · have he : (SodiumPlant.step cfg s req dt).1 = s := by
      simp only [SodiumPlant.step]
      rw [if_pos h1]
    rw [he]
    exact PlantState.counters_le_refl s
  · by_cases h2 : s.electrode_state.in_maintenance
    · have he : (SodiumPlant.step cfg s req dt).1 =
          { s with time_hours := s.time_hours + dt } := by
        simp only [SodiumPlant.step]
        rw [if_neg h1, if_pos h2]
      rw [he]
      simp only [PlantState.counters_le]
      have hdt : 0 < dt := not_le.mp h1
      exact ⟨by linarith, le_refl _, le_refl _, le_refl _, le_refl _, le_refl _, le_refl _⟩
    · rw [step_production_state cfg s req dt h1 h2]
      simp only [PlantState.counters_le]
      have hdt : 0 < dt := not_le.mp h1
      have hact2 : 0 ≤ (SodiumPlant.tick_electrical cfg s req).actual_current_a := by
        simp only [SodiumPlant.tick_electrical]
        exact (solver_actual_and_dc_nonneg _ _ _ hreq hdc hP hminv hvv).1
      have hdcp2 : 0 ≤ (SodiumPlant.tick_electrical cfg s req).dc_power_kw := by
        simp only [SodiumPlant.tick_electrical]
        exact (solver_actual_and_dc_nonneg _ _ _ hreq hdc hP hminv hvv).2
      have hna : 0 ≤ calculate_sodium_production
          (SodiumPlant.tick_electrical cfg s req).actual_current_a dt
          ((s.electrode_state.step cfg.electrodes
            (SodiumPlant.tick_electrical cfg s req).actual_current_a
            dt).effective_efficiency cfg.electrodes) :=
        calculate_sodium_production_nonneg _ _ _ hact2 hdt.le
          (effective_efficiency_nonneg _ _ hen hee)
      have hfc : (0 : ℚ) ≤ (sodium_loss_fractions 600 cfg.sodium_losses).1 :=
        sodium_loss_f_collected_nonneg 600 cfg.sodium_losses
      obtain ⟨hco1, hco2, hco3⟩ := co_product_masses_nonneg cfg.reaction_stoich
        (calculate_sodium_production
          (SodiumPlant.tick_electrical cfg s req).actual_current_a dt
          ((s.electrode_state.step cfg.electrodes
            (SodiumPlant.tick_electrical cfg s req).actual_current_a
            dt).effective_efficiency cfg.electrodes)) hnaoh hcl2 hh2
      exact ⟨by linarith, le_add_of_nonneg_right (mul_nonneg hna hfc),
        le_add_of_nonneg_right (mul_nonneg hco1 hfc),
        le_add_of_nonneg_right (mul_nonneg hco2 hfc),
        le_add_of_nonneg_right (mul_nonneg hco3 hfc),
        le_add_of_nonneg_right
          (calculate_finances_revenue_nonneg _ _ _ _ _ (mul_nonneg hna hfc) hpp),
        le_add_of_nonneg_right
          (calculate_finances_cost_nonneg _ _ _ _ _ hdcp2 hdt.le hpc)⟩

/-- C5 amended core: counters are monotone along any tick sequence with
non-negative requested currents. -/
theorem counters_monotone_for_nonneg_currents (cfg : PlantConfig) (hv : cfg.valid)
    (s : PlantState) (ticks : List (ℚ × ℚ)) (hreq : ∀ p ∈ ticks, 0 ≤ p.1) :
    s.counters_le (SodiumPlant.runTicks cfg s ticks) := by
  induction ticks generalizing s with
  | nil => exact PlantState.counters_le_refl s
  | cons p rest ih =>
    have h1 : 0 ≤ p.1 := hreq p (List.mem_cons_self p rest)
    have h2 : ∀ q ∈ rest, 0 ≤ q.1 := fun q hq => hreq q (List.mem_cons_of_mem p hq)
    exact PlantState.counters_le_trans (step_counters_mono cfg hv s p.1 p.2 h1)
      (ih (SodiumPlant.step cfg s p.1 p.2).1 h2)

/-- Witness for the amended C5: with the default (valid) configuration and a
tick at 10000 A for 1 h, all counters are non-decreasing. -/
theorem counters_monotone_for_nonneg_currents_witness :
    ({} : PlantConfig).valid ∧
    ({} : PlantState).counters_le (SodiumPlant.runTicks {} {} [(10000, 1)]) :=
  ⟨by norm_num [PlantConfig.valid],
    counters_monotone_for_nonneg_currents {} (by norm_num [PlantConfig.valid]) {}
      [(10000, 1)]
      (by intro p hp; rw [List.mem_singleton] at hp; subst hp; norm_num)⟩

/-- C5 as stated is false on the code: a tick with a negative requested
current (allowed by 'any requested currents') strictly decreases the
cumulative sodium counter with the default configuration. -/
theorem counters_monotone_cex :
    (SodiumPlant.runTicks {} {} [(-10000, 1)]).cumulative_na_produced_kg <
      ({} : PlantState).cumulative_na_produced_kg := by
  norm_num [SodiumPlant.runTicks, SodiumPlant.step, SodiumPlant.tick_electrical,
    compute_electrical_state, ElectrodeState.step, ElectrodeState.effective_efficiency,
    ElectrodeState.effective_resistance_multiplier, ElectrodeState.remaining_life_fraction,
    calculate_sodium_production, calculate_finances, co_product_masses,
    sodium_loss_fractions, min_def, max_def]

/-- A wear-integration step never decreases cumulative amp-hours. -/
lemma electrode_step_amp_mono (cfg : ElectrodeConfig) (s : ElectrodeState) (c dt : ℚ) :
    s.cumulative_amp_hours ≤ (s.step cfg c dt).cumulative_amp_hours := by
  simp only [ElectrodeState.step]
  split_ifs with h h2
  · exact le_refl _
  · push_neg at h
    exact le_add_of_nonneg_right (mul_pos h.2.2 h.2.1).le
  · push_neg at h
    exact le_add_of_nonneg_right (mul_pos h.2.2 h.2.1).le

/-- A step in maintenance is a no-op. -/
lemma electrode_step_maint_absorb (cfg : ElectrodeConfig) (s : ElectrodeState)
    (c dt : ℚ) (h : s.in_maintenance = true) : s.step cfg c dt = s := by
  unfold ElectrodeState.step
  rw [if_pos (Or.inl h)]

/-- Any run of steps in maintenance is a no-op. -/
lemma electrode_runSteps_maint_absorb (cfg : ElectrodeConfig) (s : ElectrodeState)
    (l : List (ℚ × ℚ)) (h : s.in_maintenance = true) :
    ElectrodeState.runSteps cfg s l = s := by
  induction l with
  | nil => rfl
  | cons p rest ih =>
    simp only [ElectrodeState.runSteps]
    rw [electrode_step_maint_absorb cfg s p.1 p.2 h]
    exact ih

/-- Remaining life is antitone in cumulative amp-hours. -/
lemma remaining_anti (cfg : ElectrodeConfig) (s t : ElectrodeState)
    (h : s.cumulative_amp_hours ≤ t.cumulative_amp_hours) :
    t.remaining_life_fraction cfg ≤ s.remaining_life_fraction cfg := by
  unfold ElectrodeState.remaining_life_fraction
  split_ifs with hL
  · exact le_refl 1
  · push_neg at hL
    have hdiv : s.cumulative_amp_hours / cfg.amp_hours_limit ≤
        t.cumulative_amp_hours / cfg.amp_hours_limit :=
      (div_le_div_iff_of_pos_right hL).mpr h
    exact max_le_max (le_refl 0) (min_le_min (le_refl 1) (by linarith))

/-- Cumulative amp-hours never decrease along a run. -/
lemma electrode_runSteps_amp_mono (cfg : ElectrodeConfig) (s : ElectrodeState)
    (l : List (ℚ × ℚ)) :
    s.cumulative_amp_hours ≤ (ElectrodeState.runSteps cfg s l).cumulative_amp_hours := by
  induction l generalizing s with
  | nil => exact le_refl _
  | cons p rest ih =>
    simp only [ElectrodeState.runSteps]
    exact le_trans (electrode_step_amp_mono cfg s p.1 p.2) (ih _)

/-- Running an appended trace is running the pieces in order. -/
lemma electrode_runSteps_append (cfg : ElectrodeConfig) (s : ElectrodeState)
    (l₁ l₂ : List (ℚ × ℚ)) :
    ElectrodeState.runSteps cfg s (l₁ ++ l₂) =
      ElectrodeState.runSteps cfg (ElectrodeState.runSteps cfg s l₁) l₂ := by
  induction l₁ generalizing s with
  | nil => rfl
  | cons p rest ih =>
    simp only [List.cons_append, ElectrodeState.runSteps]
    exact ih _

/-- Life at or below the minimum fraction is exactly cumulative amp-hours at
or above the limit times (1 - minimum fraction). -/
lemma remaining_le_iff (cfg : ElectrodeConfig) (hL : 0 < cfg.amp_hours_limit)
    (hm0 : 0 ≤ cfg.min_life_fraction_for_operation)
    (hm1 : cfg.min_life_fraction_for_operation < 1) (s : ElectrodeState) :
    s.remaining_life_fraction cfg ≤ cfg.min_life_fraction_for_operation ↔
      cfg.amp_hours_limit * (1 - cfg.min_life_fraction_for_operation) ≤
        s.cumulative_amp_hours := by
  unfold ElectrodeState.remaining_life_fraction
  rw [if_neg (not_le.mpr hL), max_le_iff, min_le_iff]
  constructor
  · rintro ⟨-, h | h⟩
    · linarith
    · have h2 : 1 - cfg.min_life_fraction_for_operation ≤
          s.cumulative_amp_hours / cfg.amp_hours_limit := by linarith
      have h3 := (le_div_iff₀ hL).mp h2
      linarith
  · intro h
    refine ⟨hm0, Or.inr ?_⟩
    have h2 : (1 - cfg.min_life_fraction_for_operation) * cfg.amp_hours_limit ≤
        s.cumulative_amp_hours := by linarith
    have h3 := (le_div_iff₀ hL).mpr h2
    linarith

/-- One step preserves the latch invariant: in_maintenance holds exactly when
cumulative amp-hours have reached the maintenance boundary. -/
lemma electrode_step_latch_invariant (cfg : ElectrodeConfig)
    (hL : 0 < cfg.amp_hours_limit) (hm0 : 0 ≤ cfg.min_life_fraction_for_operation)
    (hm1 : cfg.min_life_fraction_for_operation < 1) (s : ElectrodeState)
    (hinv : s.in_maintenance = true ↔
      cfg.amp_hours_limit * (1 - cfg.min_life_fraction_for_operation) ≤
        s.cumulative_amp_hours) (c dt : ℚ) :
    (s.step cfg c dt).in_maintenance = true ↔
      cfg.amp_hours_limit * (1 - cfg.min_life_fraction_for_operation) ≤
        (s.step cfg c dt).cumulative_amp_hours := by
  simp only [ElectrodeState.step]
  split_ifs with h h2
  · exact hinv
  · constructor
    · intro _
      exact (remaining_le_iff cfg hL hm0 hm1 _).mp h2
    · intro _
      rfl
  · push_neg at h
    constructor
    · intro hfalse
      exact absurd hfalse h.1
    · intro hge
      exact absurd ((remaining_le_iff cfg hL hm0 hm1 _).mpr hge) h2

/-- The latch invariant holds after running any trace from a state satisfying
it. -/
lemma electrode_runSteps_latch_invariant (cfg : ElectrodeConfig)
    (hL : 0 < cfg.amp_hours_limit) (hm0 : 0 ≤ cfg.min_life_fraction_for_operation)
    (hm1 : cfg.min_life_fraction_for_operation < 1) (s : ElectrodeState)
    (hinv : s.in_maintenance = true ↔
      cfg.amp_hours_limit * (1 - cfg.min_life_fraction_for_operation) ≤
        s.cumulative_amp_hours) (l : List (ℚ × ℚ)) :
    (ElectrodeState.runSteps cfg s l).in_maintenance = true ↔
      cfg.amp_hours_limit * (1 - cfg.min_life_fraction_for_operation) ≤
        (ElectrodeState.runSteps cfg s l).cumulative_amp_hours := by
  induction l generalizing s with
  | nil => exact hinv
  | cons p rest ih =>
    simp only [ElectrodeState.runSteps]
    exact ih _ (electrode_step_latch_invariant cfg hL hm0 hm1 s hinv p.1 p.2)

/-- C6: over every sequence of wear-integration steps with positive current
and dt, starting from fresh electrodes, remaining_life_fraction is
non-increasing along the trace; in_maintenance holds exactly when
cumulative_amp_hours has reached amp_hours_limit * (1 - minimum fraction)
(boundary inclusive), equivalently exactly when remaining life is at or below
the minimum fraction (so the latch flips on exactly the first step reaching
the boundary); once in maintenance every further step is a no-op until
reset_after_maintenance, which zeroes usage and clears the latch. -/
theorem electrode_life_monotone_and_maintenance_latch (cfg : ElectrodeConfig)
    (hL : 0 < cfg.amp_hours_limit) (hm0 : 0 ≤ cfg.min_life_fraction_for_operation)
    (hm1 : cfg.min_life_fraction_for_operation < 1)
    (l : List (ℚ × ℚ)) (hpos : ∀ p ∈ l, 0 < p.1 ∧ 0 < p.2) :
    (∀ l₁ l₂, l = l₁ ++ l₂ →
      (ElectrodeState.runSteps cfg {} l).remaining_life_fraction cfg ≤
        (ElectrodeState.runSteps cfg {} l₁).remaining_life_fraction cfg) ∧
    ((ElectrodeState.runSteps cfg {} l).in_maintenance = true ↔
      cfg.amp_hours_limit * (1 - cfg.min_life_fraction_for_operation) ≤
        (ElectrodeState.runSteps cfg {} l).cumulative_amp_hours) ∧
    ((ElectrodeState.runSteps cfg {} l).in_maintenance = true ↔
      (ElectrodeState.runSteps cfg {} l).remaining_life_fraction cfg ≤
        cfg.min_life_fraction_for_operation) ∧
    (∀ (t : ElectrodeState) (l' : List (ℚ × ℚ)), t.in_maintenance = true →
      ElectrodeState.runSteps cfg t l' = t) ∧
    (∀ t : ElectrodeState, (t.reset_after_maintenance).cumulative_amp_hours = 0 ∧
      (t.reset_after_maintenance).in_maintenance = false) := by
  have hbase : ({} : ElectrodeState).in_maintenance = true ↔
      cfg.amp_hours_limit * (1 - cfg.min_life_fraction_for_operation) ≤
        ({} : ElectrodeState).cumulative_amp_hours := by
    constructor
    · intro h
      exact absurd h (by decide)
    · intro h
      exact absurd h (not_le.mpr (mul_pos hL (by linarith)))
  have hlatch := electrode_runSteps_latch_invariant cfg hL hm0 hm1 {} hbase l
  refine ⟨?_, hlatch, ?_, ?_, ?_⟩
  · intro l₁ l₂ hsplit
    rw [hsplit, electrode_runSteps_append]
    exact remaining_anti cfg _ _ (electrode_runSteps_amp_mono cfg _ l₂)
  · rw [hlatch]
    exact (remaining_le_iff cfg hL hm0 hm1 _).symm
  · exact fun t l' h => electrode_runSteps_maint_absorb cfg t l' h
  · exact fun t => ⟨rfl, rfl⟩

/-- Witness for C6: amp_hours_limit = 100, default minimum fraction 0.1, a
single 90 amp-hour step reaches the boundary exactly and flips the latch. -/
theorem electrode_life_monotone_and_maintenance_latch_witness :
    (0 : ℚ) < ({ amp_hours_limit := 100 } : ElectrodeConfig).amp_hours_limit ∧
    ((ElectrodeState.runSteps { amp_hours_limit := 100 } {} [(90, 1)]).in_maintenance =
        true ↔
      ({ amp_hours_limit := 100 } : ElectrodeConfig).amp_hours_limit *
          (1 - ({ amp_hours_limit := 100 } :
            ElectrodeConfig).min_life_fraction_for_operation) ≤
        (ElectrodeState.runSteps { amp_hours_limit := 100 } {}
          [(90, 1)]).cumulative_amp_hours) :=
  ⟨by norm_num,
    (electrode_life_monotone_and_maintenance_latch { amp_hours_limit := 100 }
      (by norm_num) (by norm_num) (by norm_num) [(90, 1)]
      (by intro p hp; rw [List.mem_singleton] at hp; subst hp; norm_num)).2.1⟩
